/-
  Verification of the AutoJob-Finder backend pipeline (Sanambir/AutoJob-Finder).

  Shallow embedding of the core components named in the specification:
  * the per-job pipeline orchestrator `_pipeline_job` and the batch runner
    `process_one` / `_run_search_pipeline`   (src/backend/routers/search.py),
  * the job state store helper `update_job`  (src/backend/routers/jobs.py),
  * the Gemini retry wrapper `gemini_call_with_retry`
                                             (src/backend/services/gemini_retry.py),
  * the notification service skip behaviour  (src/backend/services/email_service.py),
  * the scheduler / trigger registry         (src/backend/services/scheduler.py,
                                              src/backend/routers/schedule.py),
  * the per-user config endpoint             (src/backend/routers/config_router.py).

  External effects (LLM calls, SMTP transport, the scraper) are modelled as
  explicit outcome parameters of type `Except String _`: an `.error e` value
  stands for the Python call raising an exception whose `str` is `e`.
-/
import Mathlib

namespace AutoJob

/-! ## Job status values

The string statuses written by the orchestrator
(`queued`, `scoring`, `below_threshold`, `tailoring`, `emailing`,
`emailed`, `scored`, `error`). -/

inductive JobStatus where
  | queued
  | scoring
  | below_threshold
  | tailoring
  | emailing
  | emailed
  | scored
  | error
  deriving DecidableEq, Repr

/-- Result dict of `score_resume` (src/backend/services/scorer.py:64-68):
`{match_score: int, reasoning: str, missing_skills: list[str]}`. -/
structure ScoreData where
  match_score : Int
  reasoning : String
  missing_skills : List String
  deriving DecidableEq, Repr

/-- Result dict of `tailor_documents` (src/backend/services/tailor_service.py:95-98). -/
structure TailorData where
  resume_suggestions : String
  cover_letter : String
  deriving DecidableEq, Repr

/-- Result dict of `send_match_email` (src/backend/services/email_service.py):
`{"status": "sent", "recipient": ...}` or `{"status": "skipped", "reason": ...}`.
`detail` holds the second key's value. -/
structure EmailResult where
  status : String
  detail : String
  deriving DecidableEq, Repr

/-! ## The job record and field updates

`update_job(job_id, **kwargs)` (src/backend/routers/jobs.py:104-119) merges an
arbitrary subset of fields into an existing record via `setattr`.  A `JobUpdate`
records which keyword arguments were passed: `none` means the kwarg was absent.
The record keeps two creation-time fields (`title`, `created_at`) that the
pipeline never passes, to witness that updates merge rather than replace. -/

structure JobRecord where
  title : String
  status : JobStatus
  match_score : Option Int
  reasoning : Option String
  missing_skills : List String
  resume_suggestions : Option String
  cover_letter : Option String
  error : Option String
  created_at : Nat
  updated_at : Nat
  deriving DecidableEq, Repr

structure JobUpdate where
  status : Option JobStatus := none
  match_score : Option Int := none
  reasoning : Option String := none
  missing_skills : Option (List String) := none
  resume_suggestions : Option String := none
  cover_letter : Option String := none
  error : Option String := none
  deriving DecidableEq, Repr

/-- `setattr(job, k, v)` for an `Option`-valued column: a present kwarg
overwrites the old value, an absent one leaves it. -/
def merge_field (new old : Option α) : Option α :=
  match new with
  | some v => some v
  | none => old

/-- The `setattr` loop of `update_job`: each kwarg that is present overwrites
the corresponding field; `updated_at` is then set to the current time
(modelled as a `Nat` tick). -/
def apply_update (r : JobRecord) (u : JobUpdate) (now : Nat) : JobRecord where
  title := r.title
  status := u.status.getD r.status
  match_score := merge_field u.match_score r.match_score
  reasoning := merge_field u.reasoning r.reasoning
  missing_skills := u.missing_skills.getD r.missing_skills
  resume_suggestions := merge_field u.resume_suggestions r.resume_suggestions
  cover_letter := merge_field u.cover_letter r.cover_letter
  error := merge_field u.error r.error
  created_at := r.created_at
  updated_at := now

/-- All columns of two job records agree except possibly `updated_at`. -/
def same_except_updated_at (a b : JobRecord) : Prop :=
  a.title = b.title ∧ a.status = b.status ∧ a.match_score = b.match_score ∧
  a.reasoning = b.reasoning ∧ a.missing_skills = b.missing_skills ∧
  a.resume_suggestions = b.resume_suggestions ∧ a.cover_letter = b.cover_letter ∧
  a.error = b.error ∧ a.created_at = b.created_at

/-- The job store, keyed by job id.  `update_job` (src/backend/routers/jobs.py:104-119)
queries the row by id; when the row exists it merges the kwargs and bumps
`updated_at`; when it does not, nothing is written. -/
def update_job (store : String → Option JobRecord) (job_id : String) (u : JobUpdate)
    (now : Nat) : String → Option JobRecord :=
  match store job_id with
  | none => store
  | some r => fun k => if k = job_id then some (apply_update r u now) else store k

/-! ## The per-job pipeline orchestrator

`_pipeline_job` (src/backend/routers/search.py:59-131) runs
score → gate → tailor → email for one job, calling `update_job` at every
transition.  We embed it as the sequence of events it performs: each
`update` event is one `update_job` call, each `call*` event is the
invocation of the corresponding stage service.  The stage results are
outcome parameters (`.error e` = the awaited call raised `e`). -/

inductive PipelineEvent where
  | update (u : JobUpdate)
  | callScore
  | callTailor
  | callEmail
  deriving DecidableEq, Repr

/-- src/backend/routers/search.py:59-131 (`_pipeline_job`).
`threshold` is the value of `app_config["match_threshold"]` at gate time. -/
def pipeline_job (threshold : Int) (score_outcome : Except String ScoreData)
    (tailor_outcome : Except String TailorData)
    (email_outcome : Except String EmailResult) : List PipelineEvent :=
  [.update { status := some .scoring }, .callScore] ++
  match score_outcome with
  | .error e => [.update { status := some .error, error := some ("Scoring: " ++ e) }]
  | .ok sd =>
    [.update { match_score := some sd.match_score,
               reasoning := some sd.reasoning,
               missing_skills := some sd.missing_skills }] ++
    if sd.match_score < threshold then
      [.update { status := some .below_threshold }]
    else
      [.update { status := some .tailoring }, .callTailor] ++
      match tailor_outcome with
      | .error e => [.update { status := some .error, error := some ("Tailoring: " ++ e) }]
      | .ok td =>
        [.update { resume_suggestions := some td.resume_suggestions,
                   cover_letter := some td.cover_letter },
         .update { status := some .emailing }, .callEmail] ++
        match email_outcome with
        | .error e => [.update { status := some .error, error := some ("Email: " ++ e) }]
        | .ok r =>
          if r.status == "skipped" then
            [.update { status := some .scored }]
          else
            [.update { status := some .emailed }]

/-- `process_one` (src/backend/routers/search.py:192-217): with
`auto_pipeline = true` it delegates to `_pipeline_job`; otherwise it runs the
score-only branch, writing the gate verdict (`below_threshold` / `scored`)
in the same `update_job` call as the score fields. -/
def process_one (auto_pipeline : Bool) (threshold : Int)
    (score_outcome : Except String ScoreData)
    (tailor_outcome : Except String TailorData)
    (email_outcome : Except String EmailResult) : List PipelineEvent :=
  if auto_pipeline then
    pipeline_job threshold score_outcome tailor_outcome email_outcome
  else
    [.update { status := some .scoring }, .callScore] ++
    match score_outcome with
    | .ok sd =>
      [.update { match_score := some sd.match_score,
                 reasoning := some sd.reasoning,
                 missing_skills := some sd.missing_skills,
                 status := some (if sd.match_score < threshold then .below_threshold
                                 else .scored) }]
    | .error e => [.update { status := some .error, error := some e }]

/-- The successive values written to the `status` field by a run. -/
def status_trace (events : List PipelineEvent) : List JobStatus :=
  events.filterMap fun e =>
    match e with
    | .update u => u.status
    | _ => none

/-! ## The §4.5 state machine -/

/-- The transition edges of spec §4.5:
`queued → scoring → (below_threshold | tailoring) → emailing → (emailed | scored)`,
with `error` reachable from `scoring`, `tailoring`, `emailing`. -/
def allowed_edge : JobStatus → JobStatus → Bool
  | .queued, .scoring => true
  | .scoring, .below_threshold => true
  | .scoring, .tailoring => true
  | .scoring, .error => true
  | .tailoring, .emailing => true
  | .tailoring, .error => true
  | .emailing, .emailed => true
  | .emailing, .scored => true
  | .emailing, .error => true
  | _, _ => false

/-- Terminal statuses: once written, no further status write may occur. -/
def is_terminal : JobStatus → Bool
  | .below_threshold => true
  | .emailed => true
  | .scored => true
  | .error => true
  | _ => false

/-- Position of a status along the forward order of the pipeline. -/
def status_rank : JobStatus → Nat
  | .queued => 0
  | .scoring => 1
  | .below_threshold => 2
  | .tailoring => 2
  | .emailing => 3
  | .emailed => 4
  | .scored => 4
  | .error => 5

/-- Every consecutive pair of status writes (starting from the creation status)
is an allowed edge. -/
def forward_chain : JobStatus → List JobStatus → Bool
  | _, [] => true
  | s, t :: rest => allowed_edge s t && forward_chain t rest

/-- No status is written after a terminal status has been written. -/
def halts_after_terminal : List JobStatus → Bool
  | [] => true
  | [_] => true
  | s :: rest => !is_terminal s && halts_after_terminal rest

/-! ## C3: which threshold the gate reads

`_pipeline_job` compares the score against `app_config["match_threshold"]`
(src/backend/routers/search.py:85), a process-global in-memory value
initialised at import time (src/backend/config.py:54-57).  The per-user
threshold configured through `PATCH /config`
(src/backend/routers/config_router.py:28-37) is written to the
`users.match_threshold` column only; no code path writes `app_config`
after start-up, and `_pipeline_job` takes no user as input. -/

/-- config.py:54-57: `app_config["match_threshold"]`, initialised from the
persisted state file or the `MATCH_THRESHOLD` env default `75`. -/
def app_config_match_threshold : Int := 75

/-- `update_config` (src/backend/routers/config_router.py:28-37): clamps the
payload to `[0, 100]` and stores it as the requesting user's
`match_threshold` column.  It returns the user's new stored threshold and
does not touch `app_config`. -/
def update_config (payload : Int) : Int := max 0 (min 100 payload)

/-- `send_match_email` (src/backend/services/email_service.py:15-121):
`if not SMTP_EMAIL or not SMTP_PASSWORD: return {"status": "skipped", ...}`;
otherwise the PDF is rendered and the message is sent over SMTP (`transport`
models that part: `.error e` = the transport raised). -/
def send_match_email (smtp_email smtp_password : String)
    (transport : Except String Unit) (recipient : String) :
    Except String EmailResult :=
  if smtp_email.isEmpty || smtp_password.isEmpty then
    .ok { status := "skipped", detail := "SMTP credentials not configured" }
  else
    transport.map fun _ => { status := "sent", detail := recipient }

/-- Replay a run's `update_job` calls against the job's record, with a
monotone tick standing for `datetime.utcnow()`. -/
def run_updates (r : JobRecord) (events : List PipelineEvent) (t : Nat) : JobRecord :=
  match events with
  | [] => r
  | .update u :: rest => run_updates (apply_update r u (t + 1)) rest (t + 1)
  | _ :: rest => run_updates r rest t

/-! ## The Gemini retry wrapper

`gemini_call_with_retry` (src/backend/services/gemini_retry.py:15-38):
`for attempt in range(_MAX_RETRIES)`: call `fn`; on an exception whose message
does not contain a retryable code, or on the last attempt, re-raise; otherwise
sleep `_BASE_DELAY * 2 ** attempt` seconds and continue.  `fn` is modelled as
the per-attempt outcome `outcomes : Nat → Except String α`; the embedding
returns the final outcome together with the sleeps performed and the number
of attempts made. -/

def _MAX_RETRIES : Nat := 4

def _BASE_DELAY : Nat := 5

def _RETRYABLE_CODES : List String := ["429", "503"]

/-- `needle` occurs at the start of `hay` (character lists). -/
def list_starts_with : List Char → List Char → Bool
  | [], _ => true
  | _ :: _, [] => false
  | a :: as, b :: bs => a == b && list_starts_with as bs

/-- `needle` occurs somewhere in `hay` (character lists). -/
def list_contains_sub (needle : List Char) : List Char → Bool
  | [] => needle.isEmpty
  | b :: bs => list_starts_with needle (b :: bs) || list_contains_sub needle bs

/-- Python's `f"{code}" in msg` substring test. -/
def str_contains (hay needle : String) : Bool :=
  list_contains_sub needle.data hay.data

/-- `any(f"{code}" in msg for code in _RETRYABLE_CODES)`
(src/backend/services/gemini_retry.py:29). -/
def is_retryable (msg : String) : Bool :=
  _RETRYABLE_CODES.any fun code => str_contains msg code

structure RetryTrace (α : Type) where
  result : Except String α
  sleeps : List Nat
  attempts : Nat
  deriving Repr

/-- The `for attempt in range(_MAX_RETRIES)` loop, structurally recursive on the
number of remaining iterations (`fuel = _MAX_RETRIES - attempt`, so the
source's last-attempt test `attempt == _MAX_RETRIES - 1` is `fuel == 1`,
i.e. the inner `fuel == 0` after the pattern `fuel + 1`).  The `fuel = 0`
case is never reached from `gemini_call_with_retry`. -/
def retry_loop (outcomes : Nat → Except String α) (attempt : Nat) :
    (fuel : Nat) → RetryTrace α
  | 0 => { result := .error "", sleeps := [], attempts := 0 }
  | fuel + 1 =>
    match outcomes attempt with
    | .ok v => { result := .ok v, sleeps := [], attempts := 1 }
    | .error e =>
      if !is_retryable e || fuel == 0 then
        { result := .error e, sleeps := [], attempts := 1 }
      else
        { result := (retry_loop outcomes (attempt + 1) fuel).result,
          sleeps := _BASE_DELAY * 2 ^ attempt ::
            (retry_loop outcomes (attempt + 1) fuel).sleeps,
          attempts := (retry_loop outcomes (attempt + 1) fuel).attempts + 1 }

/-- src/backend/services/gemini_retry.py:15-38. -/
def gemini_call_with_retry (outcomes : Nat → Except String α) : RetryTrace α :=
  retry_loop outcomes 0 _MAX_RETRIES

/-! ## The scheduler and its trigger registry

`services/scheduler.py` keeps an APScheduler cron-job registry keyed by
`"search_" + user_id`; `routers/schedule.py` persists one `UserSchedule` row
per user and re-synchronises the registry on every write. -/

/-- The `UserSchedule` row (src/backend/models.py:67-82). -/
structure Sched where
  keywords : String
  location : String
  platforms : List String
  results_per_site : Nat
  hours_old : Nat
  auto_pipeline : Bool
  run_time : String
  enabled : Bool
  last_run : Option String
  deriving DecidableEq, Repr

/-- The `ScheduleRequest` payload (src/backend/routers/schedule.py:17-25). -/
structure ScheduleRequest where
  keywords : String
  location : String
  platforms : List String
  results_per_site : Nat
  hours_old : Nat
  auto_pipeline : Bool
  run_time : String
  enabled : Bool
  deriving DecidableEq, Repr

/-- `_job_id` (src/backend/services/scheduler.py:60-61). -/
def sched_job_id (user_id : String) : String := "search_" ++ user_id

/-- Python `run_time.split(":")` on the character list: split on every
occurrence of `':'`. -/
def split_on_colon : List Char → List (List Char)
  | [] => [[]]
  | c :: rest =>
    if c = ':' then [] :: split_on_colon rest
    else
      match split_on_colon rest with
      | piece :: pieces => (c :: piece) :: pieces
      | [] => [[c]]

/-- Decimal value of a digit run; `none` on an empty run or a non-digit. -/
def digits_val : List Char → Option Nat
  | [] => none
  | cs =>
    cs.foldl
      (fun acc c =>
        match acc with
        | none => none
        | some n => if c.isDigit then some (n * 10 + (c.toNat - 48)) else none)
      (some 0)

/-- Python `int(piece)` on a split piece: optional minus sign and decimal
digits, `none` when `int` would raise `ValueError`.  (Python's `int`
additionally tolerates surrounding whitespace, a `+` sign and `_` separators,
so every piece this model accepts the source accepts too.) -/
def chars_to_int : List Char → Option Int
  | [] => none
  | c :: cs =>
    if c = '-' then (digits_val cs).map fun n => -(n : Int)
    else (digits_val (c :: cs)).map fun n => (n : Int)

/-- The trigger-add path of `upsert_schedule`
(src/backend/services/scheduler.py:70-78):
`hour, minute = run_time.split(":")` raises unless the split has exactly two
pieces, `int(...)` raises unless each piece is an integer literal, and
`CronTrigger(hour=..., minute=...)` raises `ValueError` unless
`0 ≤ hour ≤ 23` and `0 ≤ minute ≤ 59`.  `none` means the Python code raises. -/
def parse_run_time (run_time : String) : Option (Int × Int) :=
  match split_on_colon run_time.data with
  | [h, m] =>
    match chars_to_int h, chars_to_int m with
    | some hour, some minute =>
      if 0 ≤ hour ∧ hour ≤ 23 ∧ 0 ≤ minute ∧ minute ≤ 59 then some (hour, minute)
      else none
    | _, _ => none
  | _ => none

/-- Result of one registry re-synchronisation: the registry it leaves behind,
and whether the Python call raised on the way. -/
structure UpsertResult where
  reg : List (String × String)
  raised : Bool
  deriving DecidableEq, Repr

/-- `upsert_schedule` (src/backend/services/scheduler.py:64-79): any existing
trigger for the user is removed first; when `enabled`, the run time is then
parsed and the `(job id, run time)` trigger added.  On a malformed run time
the parse/`CronTrigger` call raises AFTER the removal, so the registry is left
with the old entry removed and nothing added (`raised = true`). -/
def upsert_schedule (reg : List (String × String)) (user_id run_time : String)
    (enabled : Bool) : UpsertResult :=
  if enabled then
    match parse_run_time run_time with
    | some _ =>
      { reg := (sched_job_id user_id, run_time) ::
          reg.filter fun jb => jb.1 ≠ sched_job_id user_id,
        raised := false }
    | none =>
      { reg := reg.filter fun jb => jb.1 ≠ sched_job_id user_id, raised := true }
  else
    { reg := reg.filter fun jb => jb.1 ≠ sched_job_id user_id, raised := false }

/-- `remove_schedule` (src/backend/services/scheduler.py:82-85): never raises. -/
def remove_schedule (reg : List (String × String)) (user_id : String) :
    List (String × String) :=
  reg.filter fun jb => jb.1 ≠ sched_job_id user_id

/-- The persisted schedule table plus the in-process trigger registry. -/
structure SchedState where
  db : String → Option Sched
  reg : List (String × String)

/-- `PUT /schedule` (`set_schedule`, src/backend/routers/schedule.py:48-71):
upsert the user's row with the payload fields (`last_run` untouched) and
commit, THEN re-synchronise the trigger registry.  The commit precedes the
sync, so when `upsert_schedule` raises (second component `true`, surfacing as
a 500 to the caller) the row is already durably written and the user's old
trigger already removed. -/
def set_schedule (st : SchedState) (user_id : String) (p : ScheduleRequest) :
    SchedState × Bool :=
  ({ db := fun k =>
      if k = user_id then
        some { keywords := p.keywords, location := p.location,
               platforms := p.platforms, results_per_site := p.results_per_site,
               hours_old := p.hours_old, auto_pipeline := p.auto_pipeline,
               run_time := p.run_time, enabled := p.enabled,
               last_run := match st.db user_id with
                           | some old => old.last_run
                           | none => none }
      else st.db k,
     reg := (upsert_schedule st.reg user_id p.run_time p.enabled).reg },
   (upsert_schedule st.reg user_id p.run_time p.enabled).raised)

/-- `DELETE /schedule` (`delete_schedule`, src/backend/routers/schedule.py:74-81):
delete the row if present, then remove the trigger; never raises. -/
def delete_schedule (st : SchedState) (user_id : String) : SchedState where
  db := fun k => if k = user_id then none else st.db k
  reg := remove_schedule st.reg user_id

/-- The start-up rebuild loop (src/backend/services/scheduler.py:88-99):
`for s in schedules: upsert_schedule(s.user_id, s.run_time, True)` over the
rows with `enabled == True`; an exception from one iteration propagates
(there is no `except`), abandoning the rest of the loop. -/
def load_all_loop (db : String → Option Sched) :
    List String → List (String × String) → UpsertResult
  | [], reg => { reg := reg, raised := false }
  | u :: rest, reg =>
    match db u with
    | some s =>
      if s.enabled then
        if (upsert_schedule reg u s.run_time true).raised then
          upsert_schedule reg u s.run_time true
        else
          load_all_loop db rest (upsert_schedule reg u s.run_time true).reg
      else load_all_loop db rest reg
    | none => load_all_loop db rest reg

/-- `load_all_schedules` (src/backend/services/scheduler.py:88-99): the registry
is rebuilt from scratch (the APScheduler instance is fresh at process start)
from the persisted rows; `users` enumerates the table's user ids. -/
def load_all_schedules (db : String → Option Sched) (users : List String) :
    UpsertResult :=
  load_all_loop db users []

/-- The C9 invariant: the trigger registry holds an entry for a user iff that
user's persisted schedule row exists with `enabled` set. -/
def registry_consistent (st : SchedState) : Prop :=
  ∀ user_id, (∃ rt, (sched_job_id user_id, rt) ∈ st.reg) ↔
    (∃ s, st.db user_id = some s ∧ s.enabled = true)

/-- Payload of the C9 counterexample: `enabled`, but `run_time = "0900"` has
no `":"`, so `hour, minute = run_time.split(":")` raises `ValueError` after
the row commit and the trigger removal. -/
def c9_bad_request : ScheduleRequest where
  keywords := "rust"
  location := "Remote"
  platforms := ["indeed"]
  results_per_site := 10
  hours_old := 72
  auto_pipeline := true
  run_time := "0900"
  enabled := true

/-- The same payload with a well-formed run time, for the C9 witness. -/
def c9_good_request : ScheduleRequest :=
  { c9_bad_request with run_time := "09:00" }

/-! ## The batch runner's registration step

`_run_search_pipeline` (src/backend/routers/search.py:134-218): step 2 loops
over the scraped postings, assigning `_jobs[job_id] = {...}` for each —
`_jobs` is the in-memory mapping imported from `routers.jobs`
(src/backend/routers/search.py:18), a name `routers/jobs.py` does not in fact
define — and only afterwards does step 3 start the per-job processing under
the semaphore.  The status poll `GET /jobs` (`list_jobs`,
src/backend/routers/jobs.py:68-71) reads the SQLite `jobs` table, which the
registration loop never writes (the DB helper `create_job_record`,
src/backend/routers/jobs.py:122-140, is unused by the batch runner). -/

/-- A scraped posting (src/backend/services/job_scraper.py contract). -/
structure Posting where
  title : String
  company : String
  url : String
  description : String
  platform : String
  location : String
  date_posted : String
  deriving DecidableEq, Repr

/-- The fresh record `_jobs[job_id] = {...}`
(src/backend/routers/search.py:166-187): status `queued`, pipeline fields
empty, both timestamps `now`. -/
def new_job_record (p : Posting) (now : Nat) : JobRecord where
  title := p.title
  status := .queued
  match_score := none
  reasoning := none
  missing_skills := []
  resume_suggestions := none
  cover_letter := none
  error := none
  created_at := now
  updated_at := now

/-- The two stores the batch path touches: the in-memory `_jobs` mapping the
registration loop writes, and the DB `jobs` table that `list_jobs` and
`update_job` read. -/
structure SearchState where
  mem_jobs : List (String × JobRecord)
  db_jobs : List (String × JobRecord)
  deriving DecidableEq, Repr

/-- Step 2 of `_run_search_pipeline`: one `_jobs[job_id] = {...}` assignment
per scraped posting (`idps` pairs each generated uuid with its posting). -/
def register_jobs (st : SearchState) (idps : List (String × Posting)) (now : Nat) :
    SearchState :=
  { st with
    mem_jobs := st.mem_jobs ++ idps.map fun ip => (ip.1, new_job_record ip.2 now) }

/-- `GET /jobs` (src/backend/routers/jobs.py:68-71): the status poll reads the
DB table rows. -/
def list_jobs (st : SearchState) : List JobRecord :=
  st.db_jobs.map Prod.snd

/-- The order of operations of `_run_search_pipeline`: the whole registration
loop (step 2) runs before any per-job processing (step 3) is started. -/
inductive BatchEvent where
  | register (job_id : String)
  | process (job_id : String)
  deriving DecidableEq, Repr

def run_search_events (idps : List (String × Posting)) : List BatchEvent :=
  (idps.map fun ip => .register ip.1) ++ (idps.map fun ip => .process ip.1)

def is_register_event : BatchEvent → Bool
  | .register _ => true
  | .process _ => false

/-- Per-attempt outcomes for the C5 witness: `429` rate-limit failures on
attempts 0–2, success on attempt 3. -/
def c5_outcomes : Nat → Except String Nat :=
  fun i => if i < 3 then .error "429 RESOURCE_EXHAUSTED" else .ok 7

/-- A concrete scraped posting, used by the C7 witness. -/
def c7_posting : Posting where
  title := "Dev"
  company := "Acme"
  url := "https://acme.example/dev"
  description := "build things"
  platform := "indeed"
  location := "Remote"
  date_posted := "2025-01-01"

/-- An empty pair of stores, used by the C7 witness. -/
def c7_state : SearchState where
  mem_jobs := []
  db_jobs := []

/-! ## C1: status transitions -/

/-- **C1.** For every run of the per-job pipeline orchestrator (`_pipeline_job`,
any combination of threshold and stage outcomes), the successive values written
tl `status` — starting from the creation status `queued` — move only along the
edges `queued → scoring → (below_threshold | tailoring) → emailing →
(emailed | scored)` with `error` reachable from `scoring`, `tailoring` and
`emailing`; consequently the rank of the status strictly increases at every
write (no backward move), and no status write occurs after `error`,
`below_threshold`, `scored` or `emailed` has been written.  With
`auto_pipeline = true`, `process_one` performs exactly the orchestrator's run. -/
theorem pipeline_status_transitions (threshold : Int)
    (so : Except String ScoreData) (tl : Except String TailorData)
    (eo : Except String EmailResult) :
    forward_chain .queued (status_trace (pipeline_job threshold so tl eo)) = true ∧
    halts_after_terminal (status_trace (pipeline_job threshold so tl eo)) = true ∧
    List.Chain' (fun a b => status_rank a < status_rank b)
      (.queued :: status_trace (pipeline_job threshold so tl eo)) ∧
    process_one true threshold so tl eo = pipeline_job threshold so tl eo := by
  refine ⟨?_, ?_, ?_, rfl⟩ <;>
  · rcases so with e | sd
    · simp [pipeline_job, status_trace, forward_chain, allowed_edge,
        halts_after_terminal, is_terminal, status_rank]
    · by_cases h : sd.match_score < threshold
      · simp [pipeline_job, status_trace, h, forward_chain, allowed_edge,
          halts_after_terminal, is_terminal, status_rank]
      · rcases tl with e | td
        · simp [pipeline_job, status_trace, h, forward_chain, allowed_edge,
            halts_after_terminal, is_terminal, status_rank]
        · rcases eo with e | r
          · simp [pipeline_job, status_trace, h, forward_chain, allowed_edge,
              halts_after_terminal, is_terminal, status_rank]
          · by_cases hs : r.status == "skipped" <;>
              simp [pipeline_job, status_trace, h, hs, forward_chain, allowed_edge,
                halts_after_terminal, is_terminal, status_rank]

/-! ## C2: the below-threshold gate -/

/-- **C2.** When scoring succeeds with `match_score` strictly below the threshold
in effect at gate time, the orchestrator's whole run is exactly: the `scoring`
status write, the scoring call, the score-fields write, and the
`below_threshold` status write.  In particular the tailoring and notification
stages are never invoked, and no update of the run writes
`resume_suggestions` or `cover_letter`. -/
theorem below_threshold_gate (threshold : Int) (sd : ScoreData)
    (tl : Except String TailorData) (eo : Except String EmailResult)
    (h : sd.match_score < threshold) :
    pipeline_job threshold (.ok sd) tl eo =
      [.update { status := some .scoring }, .callScore,
       .update { match_score := some sd.match_score, reasoning := some sd.reasoning,
                 missing_skills := some sd.missing_skills },
       .update { status := some .below_threshold }] ∧
    PipelineEvent.callTailor ∉ pipeline_job threshold (.ok sd) tl eo ∧
    PipelineEvent.callEmail ∉ pipeline_job threshold (.ok sd) tl eo ∧
    ∀ u, PipelineEvent.update u ∈ pipeline_job threshold (.ok sd) tl eo →
      u.resume_suggestions = none ∧ u.cover_letter = none := by
  have heq : pipeline_job threshold (.ok sd) tl eo =
      [.update { status := some .scoring }, .callScore,
       .update { match_score := some sd.match_score, reasoning := some sd.reasoning,
                 missing_skills := some sd.missing_skills },
       .update { status := some .below_threshold }] := by
    simp [pipeline_job, h]
  refine ⟨heq, ?_, ?_, ?_⟩
  · rw [heq]; simp
  · rw [heq]; simp
  · rw [heq]
    intro u hu
    simp only [List.mem_cons, List.not_mem_nil, or_false, reduceCtorEq, false_or,
      PipelineEvent.update.injEq] at hu
    rcases hu with rfl | rfl | rfl <;> exact ⟨rfl, rfl⟩

/-- Witness for C2 at a concrete input: threshold 75, score 60. -/
theorem below_threshold_gate_witness :
    (60 : Int) < 75 ∧
    pipeline_job 75 (.ok { match_score := 60, reasoning := "weak", missing_skills := ["go"] })
        (.ok { resume_suggestions := "s", cover_letter := "c" })
        (.ok { status := "sent", detail := "a@b.c" }) =
      [.update { status := some .scoring }, .callScore,
       .update { match_score := some 60, reasoning := some "weak",
                 missing_skills := some ["go"] },
       .update { status := some .below_threshold }] :=
  ⟨by decide,
   (below_threshold_gate 75 { match_score := 60, reasoning := "weak", missing_skills := ["go"] }
      (.ok { resume_suggestions := "s", cover_letter := "c" })
      (.ok { status := "sent", detail := "a@b.c" }) (by decide)).1⟩

/-! ## C6: scoring failures are caught at the orchestrator boundary -/

/-- **C6.** When the scoring stage raises (for any cause string `e`), the
orchestrator's whole run is exactly: the `scoring` status write, the scoring
call, and one final update setting `status` to `error` with the message
`"Scoring: " ++ e` (stage tag plus underlying cause).  The run stops there:
the status trace is `[scoring, error]` and the tailoring and notification
stages are never invoked.  (`pipeline_job` is a total function on outcomes, so
the failure never escapes to the batch runner.) -/
theorem scoring_failure_isolated (threshold : Int) (e : String)
    (tl : Except String TailorData) (eo : Except String EmailResult) :
    pipeline_job threshold (.error e) tl eo =
      [.update { status := some .scoring }, .callScore,
       .update { status := some .error, error := some ("Scoring: " ++ e) }] ∧
    status_trace (pipeline_job threshold (.error e) tl eo) = [.scoring, .error] ∧
    PipelineEvent.callTailor ∉ pipeline_job threshold (.error e) tl eo ∧
    PipelineEvent.callEmail ∉ pipeline_job threshold (.error e) tl eo := by
  refine ⟨rfl, rfl, ?_, ?_⟩ <;> simp [pipeline_job]

/-- **C3 (failing evaluation).** A user configures threshold 90 through the
config endpoint (`update_config 90 = 90`), their job scores 82 — strictly
below their configured threshold — yet the pipeline, whose gate reads the
process-global `app_config_match_threshold` (75) and has no access to the
per-user value, proceeds to tailoring and emailing and never writes
`below_threshold`. -/
theorem gate_ignores_user_threshold :
    update_config 90 = 90 ∧
    (82 : Int) < update_config 90 ∧
    status_trace (pipeline_job app_config_match_threshold
        (.ok { match_score := 82, reasoning := "ok", missing_skills := [] })
        (.ok { resume_suggestions := "s", cover_letter := "c" })
        (.ok { status := "sent", detail := "a@b.c" })) =
      [.scoring, .tailoring, .emailing, .emailed] ∧
    JobStatus.below_threshold ∉ status_trace (pipeline_job app_config_match_threshold
        (.ok { match_score := 82, reasoning := "ok", missing_skills := [] })
        (.ok { resume_suggestions := "s", cover_letter := "c" })
        (.ok { status := "sent", detail := "a@b.c" })) := by
  refine ⟨by decide, by decide, ?_, ?_⟩ <;>
    simp [pipeline_job, status_trace, app_config_match_threshold]

/-! ## C4: the "skipped" notification outcome -/

/-- **C4.** For a job that reaches the emailing stage (scoring succeeded at or
above the gate threshold, tailoring succeeded), if the notification stage
returns a result whose status is `"skipped"`, the record after the run has
status `scored` — not `error`, with the `error` field untouched — and the
already-written `match_score`, `resume_suggestions` and `cover_letter` values
are retained.  Moreover `send_match_email` with a missing SMTP credential
returns exactly that `"skipped"` result. -/
theorem email_skip_yields_scored (threshold : Int) (sd : ScoreData) (td : TailorData)
    (r : EmailResult) (r0 : JobRecord) (t0 : Nat)
    (hgate : threshold ≤ sd.match_score) (hskip : r.status = "skipped") :
    (run_updates r0 (pipeline_job threshold (.ok sd) (.ok td) (.ok r)) t0).status =
      .scored ∧
    (run_updates r0 (pipeline_job threshold (.ok sd) (.ok td) (.ok r)) t0).status ≠
      .error ∧
    (run_updates r0 (pipeline_job threshold (.ok sd) (.ok td) (.ok r)) t0).error =
      r0.error ∧
    (run_updates r0 (pipeline_job threshold (.ok sd) (.ok td) (.ok r)) t0).match_score =
      some sd.match_score ∧
    (run_updates r0 (pipeline_job threshold (.ok sd) (.ok td) (.ok r)) t0).resume_suggestions =
      some td.resume_suggestions ∧
    (run_updates r0 (pipeline_job threshold (.ok sd) (.ok td) (.ok r)) t0).cover_letter =
      some td.cover_letter ∧
    (∀ pw tr rec, send_match_email "" pw tr rec =
      .ok { status := "skipped", detail := "SMTP credentials not configured" }) := by
  have hlt : ¬ sd.match_score < threshold := not_lt.mpr hgate
  have hb : (r.status == "skipped") = true := by simp [hskip]
  refine ⟨?_, ?_, ?_, ?_, ?_, ?_, fun pw tr rec => by
    have h0 : "".isEmpty = true := by decide
    simp [send_match_email, h0]⟩ <;>
    simp [pipeline_job, hlt, hb, run_updates, apply_update, merge_field]

/-- Witness for C4 at a concrete input: threshold 75, score 82, skipped send. -/
theorem email_skip_yields_scored_witness :
    (75 : Int) ≤ 82 ∧
    (run_updates
        { title := "Dev", status := .queued, match_score := none, reasoning := none,
          missing_skills := [], resume_suggestions := none, cover_letter := none,
          error := none, created_at := 0, updated_at := 0 }
        (pipeline_job 75
          (.ok { match_score := 82, reasoning := "good", missing_skills := [] })
          (.ok { resume_suggestions := "s", cover_letter := "c" })
          (.ok { status := "skipped", detail := "SMTP credentials not configured" }))
        0).status = .scored :=
  ⟨by decide,
   (email_skip_yields_scored 75
      { match_score := 82, reasoning := "good", missing_skills := [] }
      { resume_suggestions := "s", cover_letter := "c" }
      { status := "skipped", detail := "SMTP credentials not configured" }
      { title := "Dev", status := .queued, match_score := none, reasoning := none,
        missing_skills := [], resume_suggestions := none, cover_letter := none,
        error := none, created_at := 0, updated_at := 0 }
      0 (by decide) rfl).1⟩

/-! ## C5: the retry wrapper -/

theorem retry_loop_attempts_le (outcomes : Nat → Except String α) :
    ∀ (fuel attempt : Nat), (retry_loop outcomes attempt fuel).attempts ≤ fuel := by
  intro fuel
  induction fuel with
  | zero => intro attempt; simp [retry_loop]
  | succ fuel ih =>
    intro attempt
    simp only [retry_loop]
    cases h : outcomes attempt with
    | ok v => simp
    | error e =>
      dsimp only
      by_cases hr : (!is_retryable e || fuel == 0) = true
      · simp [hr]
      · rw [if_neg hr]
        exact Nat.succ_le_succ (ih (attempt + 1))

theorem retry_loop_sleeps_shape (outcomes : Nat → Except String α) :
    ∀ (fuel attempt : Nat),
      (retry_loop outcomes attempt fuel).sleeps =
        (List.range (retry_loop outcomes attempt fuel).sleeps.length).map
          (fun k => _BASE_DELAY * 2 ^ (attempt + k)) ∧
      (retry_loop outcomes attempt fuel).sleeps.length + 1 ≤ max 1 fuel := by
  intro fuel
  induction fuel with
  | zero => intro attempt; simp [retry_loop]
  | succ fuel ih =>
    intro attempt
    simp only [retry_loop]
    cases h : outcomes attempt with
    | ok v => simp
    | error e =>
      dsimp only
      by_cases hr : (!is_retryable e || fuel == 0) = true
      · simp [hr]
      · obtain ⟨ih1, ih2⟩ := ih (attempt + 1)
        have hfuel : 1 ≤ fuel := by
          rcases Nat.eq_zero_or_pos fuel with h0 | h0
          · subst h0; simp at hr
          · exact h0
        rw [if_neg hr]
        constructor
        · simp only [List.length_cons, List.range_succ_eq_map, List.map_cons,
            List.map_map]
          refine congrArg₂ List.cons (by simp) ?_
          refine ih1.trans ?_
          refine List.map_congr_left fun k _ => ?_
          simp only [Function.comp_apply]
          rw [show attempt + 1 + k = attempt + (k + 1) from by omega]
        · simp only [List.length_cons]
          omega

/-- **C5.** The retry wrapper (a) makes at most `_MAX_RETRIES = 4` attempts and
its sleep delays double from the 5-second base (`sleeps = [5·2⁰, 5·2¹, …]`, at
most three sleeps — the 40s value of the doubling schedule is never reached);
(b) when the call fails with a retryable signal on attempts 0–2 and succeeds on
attempt 3, it returns the success value after sleeping exactly 5s, 10s, 20s;
(c) a non-retryable failure is re-raised unchanged on the first attempt with no
sleeps; (d) when all 4 attempts fail retryably, the final underlying error is
re-raised unchanged after sleeps 5s, 10s, 20s. -/
theorem retry_wrapper_behaviour (α : Type) :
    (∀ outcomes : Nat → Except String α,
      (gemini_call_with_retry outcomes).attempts ≤ _MAX_RETRIES ∧
      (gemini_call_with_retry outcomes).sleeps =
        (List.range (gemini_call_with_retry outcomes).sleeps.length).map
          (fun k => _BASE_DELAY * 2 ^ k) ∧
      (gemini_call_with_retry outcomes).sleeps.length ≤ 3) ∧
    (∀ (outcomes : Nat → Except String α) (v : α),
      (∀ i, i < 3 → ∃ e, outcomes i = .error e ∧ is_retryable e = true) →
      outcomes 3 = .ok v →
      gemini_call_with_retry outcomes =
        { result := .ok v, sleeps := [5, 10, 20], attempts := 4 }) ∧
    (∀ (outcomes : Nat → Except String α) (e : String),
      outcomes 0 = .error e → is_retryable e = false →
      gemini_call_with_retry outcomes =
        { result := .error e, sleeps := [], attempts := 1 }) ∧
    (∀ outcomes : Nat → Except String α,
      (∀ i, i < 4 → ∃ e, outcomes i = .error e ∧ is_retryable e = true) →
      ∃ e3, outcomes 3 = .error e3 ∧
        gemini_call_with_retry outcomes =
          { result := .error e3, sleeps := [5, 10, 20], attempts := 4 }) := by
  refine ⟨fun outcomes => ?_, fun outcomes v hfail hok => ?_,
    fun outcomes e h0 hnr => ?_, fun outcomes hfail => ?_⟩
  · obtain ⟨h1, h2⟩ := retry_loop_sleeps_shape outcomes _MAX_RETRIES 0
    refine ⟨retry_loop_attempts_le outcomes _MAX_RETRIES 0, ?_, ?_⟩
    · simpa [gemini_call_with_retry] using h1
    · have : max 1 _MAX_RETRIES = 4 := by decide
      simp only [gemini_call_with_retry]
      omega
  · obtain ⟨e0, he0, hr0⟩ := hfail 0 (by norm_num)
    obtain ⟨e1, he1, hr1⟩ := hfail 1 (by norm_num)
    obtain ⟨e2, he2, hr2⟩ := hfail 2 (by norm_num)
    simp [gemini_call_with_retry, _MAX_RETRIES, retry_loop, he0, hr0, he1, hr1,
      he2, hr2, hok, _BASE_DELAY]
  · simp [gemini_call_with_retry, _MAX_RETRIES, retry_loop, h0, hnr]
  · obtain ⟨e0, he0, hr0⟩ := hfail 0 (by norm_num)
    obtain ⟨e1, he1, hr1⟩ := hfail 1 (by norm_num)
    obtain ⟨e2, he2, hr2⟩ := hfail 2 (by norm_num)
    obtain ⟨e3, he3, hr3⟩ := hfail 3 (by norm_num)
    refine ⟨e3, he3, ?_⟩
    simp [gemini_call_with_retry, _MAX_RETRIES, retry_loop, he0, hr0, he1, hr1,
      he2, hr2, he3, hr3, _BASE_DELAY]

/-- Witness for C5: the scenario branch evaluated at `c5_outcomes`. -/
theorem retry_wrapper_behaviour_witness :
    gemini_call_with_retry c5_outcomes =
      { result := .ok 7, sleeps := [5, 10, 20], attempts := 4 } :=
  (retry_wrapper_behaviour Nat).2.1 c5_outcomes 7
    (fun i hi => ⟨"429 RESOURCE_EXHAUSTED",
      by simp [c5_outcomes, hi], by decide⟩)
    rfl

/-! ## C8 and C10: the job store's update semantics -/

theorem merge_field_idem (o x : Option α) :
    merge_field o (merge_field o x) = merge_field o x := by
  cases o <;> rfl

theorem getD_idem (o : Option α) (x : α) : o.getD (o.getD x) = o.getD x := by
  cases o <;> rfl

/-- **C8.** For an existing record, updating twice with the same field values
leaves the record field-equal to a single update, apart from `updated_at`;
the update merges only the fields whose kwarg is present (an absent kwarg,
and the creation-time columns, keep their previous value — the record is
never replaced wholesale); and no other record of the store is touched. -/
theorem update_job_idempotent_merge (store : String → Option JobRecord)
    (job_id : String) (u : JobUpdate) (t1 t2 : Nat) (r : JobRecord)
    (h : store job_id = some r) :
    (∃ r2 r1,
      update_job (update_job store job_id u t1) job_id u t2 job_id = some r2 ∧
      update_job store job_id u t1 job_id = some r1 ∧
      same_except_updated_at r2 r1) ∧
    (∀ r1, update_job store job_id u t1 job_id = some r1 →
      r1.title = r.title ∧ r1.created_at = r.created_at ∧
      (u.status = none → r1.status = r.status) ∧
      (u.match_score = none → r1.match_score = r.match_score) ∧
      (u.reasoning = none → r1.reasoning = r.reasoning) ∧
      (u.missing_skills = none → r1.missing_skills = r.missing_skills) ∧
      (u.resume_suggestions = none → r1.resume_suggestions = r.resume_suggestions) ∧
      (u.cover_letter = none → r1.cover_letter = r.cover_letter) ∧
      (u.error = none → r1.error = r.error)) ∧
    (∀ k, k ≠ job_id → update_job store job_id u t1 k = store k) := by
  have h1 : update_job store job_id u t1 job_id = some (apply_update r u t1) := by
    simp [update_job, h]
  refine ⟨⟨apply_update (apply_update r u t1) u t2, apply_update r u t1, ?_, h1, ?_⟩,
    ?_, ?_⟩
  · simp [update_job, h, h1]
  · refine ⟨rfl, getD_idem _ _, merge_field_idem _ _, merge_field_idem _ _, ?_,
      merge_field_idem _ _, merge_field_idem _ _, merge_field_idem _ _, rfl⟩
    exact getD_idem _ _
  · intro r1 hr1
    rw [h1] at hr1
    cases hr1
    refine ⟨rfl, rfl, ?_, ?_, ?_, ?_, ?_, ?_, ?_⟩ <;>
      intro hn <;> simp [apply_update, hn, merge_field]
  · intro k hk
    simp [update_job, h, hk]

/-- Witness for C8: a one-record store updated twice with a score write. -/
theorem update_job_idempotent_merge_witness :
    (fun k => if k = "j1" then
        some { title := "Dev", status := JobStatus.queued, match_score := none,
               reasoning := none, missing_skills := [], resume_suggestions := none,
               cover_letter := none, error := none, created_at := 0,
               updated_at := 0 } else none : String → Option JobRecord) "j1" =
      some { title := "Dev", status := JobStatus.queued, match_score := none,
             reasoning := none, missing_skills := [], resume_suggestions := none,
             cover_letter := none, error := none, created_at := 0,
             updated_at := 0 } ∧
    (∃ r2 r1,
      update_job (update_job
          (fun k => if k = "j1" then
            some { title := "Dev", status := JobStatus.queued, match_score := none,
                   reasoning := none, missing_skills := [], resume_suggestions := none,
                   cover_letter := none, error := none, created_at := 0,
                   updated_at := 0 } else none) "j1" { match_score := some 82 } 1)
          "j1" { match_score := some 82 } 2 "j1" = some r2 ∧
      update_job
          (fun k => if k = "j1" then
            some { title := "Dev", status := JobStatus.queued, match_score := none,
                   reasoning := none, missing_skills := [], resume_suggestions := none,
                   cover_letter := none, error := none, created_at := 0,
                   updated_at := 0 } else none) "j1" { match_score := some 82 } 1
          "j1" = some r1 ∧
      same_except_updated_at r2 r1) :=
  ⟨by simp,
   (update_job_idempotent_merge _ "j1" { match_score := some 82 } 1 2
      { title := "Dev", status := JobStatus.queued, match_score := none,
        reasoning := none, missing_skills := [], resume_suggestions := none,
        cover_letter := none, error := none, created_at := 0, updated_at := 0 }
      (by simp)).1⟩

/-- **C10.** For a `job_id` not present in the store, `update_job` with any
field updates raises no error and is a silent no-op: the store is unchanged
at every key (no record is created, no `updated_at` is bumped anywhere). -/
theorem update_job_missing_id_noop (store : String → Option JobRecord)
    (job_id : String) (u : JobUpdate) (now : Nat)
    (h : store job_id = none) :
    update_job store job_id u now = store ∧
    ∀ k, update_job store job_id u now k = store k := by
  constructor
  · simp [update_job, h]
  · intro k; simp [update_job, h]

/-- Witness for C10: updating an id that is missing from a one-record store. -/
theorem update_job_missing_id_noop_witness :
    (fun k => if k = "j1" then
        some { title := "Dev", status := JobStatus.queued, match_score := none,
               reasoning := none, missing_skills := [], resume_suggestions := none,
               cover_letter := none, error := none, created_at := 0,
               updated_at := 0 } else none : String → Option JobRecord) "nope" = none ∧
    update_job
        (fun k => if k = "j1" then
          some { title := "Dev", status := JobStatus.queued, match_score := none,
                 reasoning := none, missing_skills := [], resume_suggestions := none,
                 cover_letter := none, error := none, created_at := 0,
                 updated_at := 0 } else none) "nope" { status := some .error } 5 =
      (fun k => if k = "j1" then
        some { title := "Dev", status := JobStatus.queued, match_score := none,
               reasoning := none, missing_skills := [], resume_suggestions := none,
               cover_letter := none, error := none, created_at := 0,
               updated_at := 0 } else none) :=
  ⟨by simp,
   (update_job_missing_id_noop _ "nope" { status := some .error } 5 (by simp)).1⟩

/-! ## C9: registry / persisted-schedule consistency -/

theorem sched_job_id_injective {a b : String} (h : sched_job_id a = sched_job_id b) :
    a = b := by
  have hd := congrArg String.data h
  simp only [sched_job_id, String.data_append] at hd
  exact String.ext (List.append_cancel_left hd)

theorem mem_filter_not_user (reg : List (String × String)) (u user_id : String) :
    (∃ rt, (sched_job_id user_id, rt) ∈
        reg.filter fun jb => jb.1 ≠ sched_job_id u) ↔
      (user_id ≠ u ∧ ∃ rt, (sched_job_id user_id, rt) ∈ reg) := by
  constructor
  · rintro ⟨rt, hm⟩
    rw [List.mem_filter] at hm
    have hne : user_id ≠ u := by
      intro hc; subst hc
      simp at hm
    exact ⟨hne, rt, hm.1⟩
  · rintro ⟨hne, rt, hm⟩
    refine ⟨rt, List.mem_filter.mpr ⟨hm, ?_⟩⟩
    simp only [decide_eq_true_eq, ne_eq]
    exact fun hc => hne (sched_job_id_injective hc)

theorem upsert_schedule_raised (reg : List (String × String)) (u rtime : String)
    (en : Bool) :
    (upsert_schedule reg u rtime en).raised = true ↔
      (en = true ∧ parse_run_time rtime = none) := by
  unfold upsert_schedule
  cases en
  · rw [if_neg (by simp)]
    simp
  · rw [if_pos rfl]
    cases hp : parse_run_time rtime <;> simp [hp]

theorem mem_upsert_schedule (reg : List (String × String)) (u rtime : String)
    (en : Bool) (user_id : String) :
    (∃ rt, (sched_job_id user_id, rt) ∈ (upsert_schedule reg u rtime en).reg) ↔
      ((user_id = u ∧ en = true ∧ parse_run_time rtime ≠ none) ∨
       (user_id ≠ u ∧ ∃ rt, (sched_job_id user_id, rt) ∈ reg)) := by
  unfold upsert_schedule
  cases en
  · rw [if_neg (by simp)]
    dsimp only
    rw [mem_filter_not_user]
    simp
  · rw [if_pos rfl]
    cases hp : parse_run_time rtime with
    | none =>
      dsimp only
      rw [mem_filter_not_user]
      constructor
      · rintro ⟨hne, hm⟩
        exact Or.inr ⟨hne, hm⟩
      · rintro (⟨rfl, -, hpn⟩ | ⟨hne, hm⟩)
        · exact absurd rfl hpn
        · exact ⟨hne, hm⟩
    | some hm2 =>
      dsimp only
      constructor
      · rintro ⟨rt, hmem⟩
        rcases List.mem_cons.mp hmem with heq | hmf
        · exact Or.inl ⟨sched_job_id_injective (congrArg Prod.fst heq), rfl,
            by simp [hp]⟩
        · obtain ⟨hne, hm3⟩ := (mem_filter_not_user reg u user_id).mp ⟨rt, hmf⟩
          exact Or.inr ⟨hne, hm3⟩
      · rintro (⟨rfl, -, -⟩ | ⟨hne, hm3⟩)
        · exact ⟨rtime, List.mem_cons_self _ _⟩
        · obtain ⟨rt, hmf⟩ := (mem_filter_not_user reg u user_id).mpr ⟨hne, hm3⟩
          exact ⟨rt, List.mem_cons_of_mem _ hmf⟩

theorem mem_load_loop (db : String → Option Sched) (user_id : String) :
    ∀ (users : List String) (reg : List (String × String)),
      (load_all_loop db users reg).raised = false →
      ((∃ rt, (sched_job_id user_id, rt) ∈ (load_all_loop db users reg).reg) ↔
        ((user_id ∈ users ∧ ∃ s, db user_id = some s ∧ s.enabled = true) ∨
         ∃ rt, (sched_job_id user_id, rt) ∈ reg)) := by
  intro users
  induction users with
  | nil =>
    intro reg _
    simp [load_all_loop]
  | cons u rest ih =>
    intro reg hnr
    simp only [load_all_loop] at hnr ⊢
    cases hdb : db u with
    | none =>
      rw [hdb] at hnr
      dsimp only at hnr ⊢
      rw [ih reg hnr]
      constructor
      · rintro (⟨hmem, hen⟩ | hm)
        · exact Or.inl ⟨List.mem_cons_of_mem _ hmem, hen⟩
        · exact Or.inr hm
      · rintro (⟨hmem, hen⟩ | hm)
        · rcases List.mem_cons.mp hmem with rfl | hmem2
          · obtain ⟨s, hs, -⟩ := hen
            rw [hdb] at hs; cases hs
          · exact Or.inl ⟨hmem2, hen⟩
        · exact Or.inr hm
    | some s =>
      rw [hdb] at hnr
      dsimp only at hnr ⊢
      cases hsen : s.enabled
      · rw [hsen] at hnr
        rw [if_neg (by simp)] at hnr ⊢
        rw [ih reg hnr]
        constructor
        · rintro (⟨hmem, hen⟩ | hm)
          · exact Or.inl ⟨List.mem_cons_of_mem _ hmem, hen⟩
          · exact Or.inr hm
        · rintro (⟨hmem, hen⟩ | hm)
          · rcases List.mem_cons.mp hmem with rfl | hmem2
            · obtain ⟨s2, hs2, hen2⟩ := hen
              rw [hdb] at hs2; cases hs2
              rw [hsen] at hen2; cases hen2
            · exact Or.inl ⟨hmem2, hen⟩
          · exact Or.inr hm
      · rw [hsen] at hnr
        rw [if_pos rfl] at hnr ⊢
        cases hr : (upsert_schedule reg u s.run_time true).raised
        · rw [hr] at hnr
          rw [if_neg (by simp)] at hnr ⊢
          have hpar : parse_run_time s.run_time ≠ none := by
            intro hpn
            have hcontra := (upsert_schedule_raised reg u s.run_time true).mpr
              ⟨rfl, hpn⟩
            rw [hr] at hcontra; cases hcontra
          rw [ih _ hnr, mem_upsert_schedule]
          constructor
          · rintro (⟨hmem, hen⟩ | (⟨rfl, -, -⟩ | ⟨-, hm⟩))
            · exact Or.inl ⟨List.mem_cons_of_mem _ hmem, hen⟩
            · exact Or.inl ⟨List.mem_cons_self _ _, s, hdb, hsen⟩
            · exact Or.inr hm
          · rintro (⟨hmem, hen⟩ | hm)
            · rcases List.mem_cons.mp hmem with rfl | hmem2
              · exact Or.inr (Or.inl ⟨rfl, rfl, hpar⟩)
              · exact Or.inl ⟨hmem2, hen⟩
            · by_cases hu : user_id = u
              · exact Or.inr (Or.inl ⟨hu, rfl, hpar⟩)
              · exact Or.inr (Or.inr ⟨hu, hm⟩)
        · rw [hr] at hnr
          rw [if_pos rfl] at hnr
          rw [hr] at hnr; cases hnr

/-- **C9 (counterexample).** The claim as stated is false: from the empty,
consistent state, `PUT /schedule` for `"alice"` with `enabled = true` and the
malformed run time `"0900"` commits the enabled row, removes any existing
trigger, and then raises at the `run_time.split(":")` unpack — before
`add_job` — leaving a persisted `enabled = true` row with no registry entry:
the registry and the store are out of sync after this schedule write. -/
theorem set_schedule_malformed_run_time_breaks_registry :
    registry_consistent { db := fun _ => none, reg := [] } ∧
    (set_schedule { db := fun _ => none, reg := [] } "alice" c9_bad_request).2 =
      true ∧
    ¬ registry_consistent
        (set_schedule { db := fun _ => none, reg := [] } "alice" c9_bad_request).1 := by
  refine ⟨fun u => by simp, by decide, fun hinv => ?_⟩
  have hdb : (set_schedule { db := fun _ => none, reg := [] } "alice"
      c9_bad_request).1.db "alice" =
      some { keywords := "rust", location := "Remote", platforms := ["indeed"],
             results_per_site := 10, hours_old := 72, auto_pipeline := true,
             run_time := "0900", enabled := true, last_run := none } := by
    simp [set_schedule, c9_bad_request]
  have hreg : (set_schedule { db := fun _ => none, reg := [] } "alice"
      c9_bad_request).1.reg = [] := by decide
  obtain ⟨rt, hm⟩ := (hinv "alice").mpr ⟨_, hdb, rfl⟩
  rw [hreg] at hm
  exact List.not_mem_nil _ hm

/-- **C9 (amended).** Every schedule write whose trigger re-synchronisation
completes without raising keeps the registry consistent with the persisted
rows: (a) `PUT /schedule` with any payload for which the sync does not raise
— in particular `enabled = false`, or a `run_time` parsing as two
`":"`-separated integers with hour 0–23 and minute 0–59 — preserves the
invariant "registry holds an entry for a user iff that user's stored schedule
exists with `enabled = true`", the write and the re-synchronisation being one
operation; (b) `DELETE /schedule` always preserves it; (c) the start-up
rebuild establishes it from scratch whenever it completes without raising
(given `users` enumerating at least the table's rows). -/
theorem schedule_writes_keep_registry_consistent :
    (∀ (st : SchedState) (user_id : String) (p : ScheduleRequest),
      registry_consistent st →
      (set_schedule st user_id p).2 = false →
      registry_consistent (set_schedule st user_id p).1) ∧
    (∀ (st : SchedState) (user_id : String),
      registry_consistent st → registry_consistent (delete_schedule st user_id)) ∧
    (∀ (db : String → Option Sched) (users : List String),
      (∀ user_id s, db user_id = some s → user_id ∈ users) →
      (load_all_schedules db users).raised = false →
      registry_consistent { db := db, reg := (load_all_schedules db users).reg }) := by
  refine ⟨fun st uid p hinv hnr => ?_, fun st uid hinv => ?_,
    fun db users hdom hnr => ?_⟩
  · intro u
    have hnr2 : (upsert_schedule st.reg uid p.run_time p.enabled).raised = false :=
      hnr
    simp only [registry_consistent, set_schedule]
    rw [mem_upsert_schedule]
    by_cases hu : u = uid
    · subst hu
      rw [if_pos rfl]
      cases hp : p.enabled
      · simp [hp]
      · have hpar : parse_run_time p.run_time ≠ none := by
          intro hpn
          have hcontra := (upsert_schedule_raised st.reg u p.run_time
            p.enabled).mpr ⟨hp, hpn⟩
          rw [hnr2] at hcontra; cases hcontra
        simp [hp, hpar]
    · rw [if_neg hu]
      simp only [hu, false_and, false_or, ne_eq, not_false_iff, true_and]
      exact hinv u
  · intro u
    simp only [registry_consistent, delete_schedule]
    rw [show remove_schedule st.reg uid =
        st.reg.filter (fun jb => jb.1 ≠ sched_job_id uid) from rfl,
      mem_filter_not_user]
    by_cases hu : u = uid
    · subst hu
      rw [if_pos rfl]
      simp
    · rw [if_neg hu]
      simp only [hu, ne_eq, not_false_iff, true_and]
      exact hinv u
  · intro u
    simp only [registry_consistent]
    rw [show (load_all_schedules db users).reg =
        (load_all_loop db users []).reg from rfl,
      mem_load_loop db u users [] hnr]
    constructor
    · rintro (⟨-, hen⟩ | hm)
      · exact hen
      · simp at hm
    · rintro ⟨s, hs, hen⟩
      exact Or.inl ⟨hdom u s hs, s, hs, hen⟩

/-- Witness for C9 (amended): enabling Alice's schedule with the well-formed
run time `"09:00"` completes without raising and keeps the registry
consistent (all hypotheses discharged at this concrete input). -/
theorem schedule_writes_keep_registry_consistent_witness :
    registry_consistent { db := fun _ => none, reg := [] } ∧
    (set_schedule { db := fun _ => none, reg := [] } "alice" c9_good_request).2 =
      false ∧
    registry_consistent
      (set_schedule { db := fun _ => none, reg := [] } "alice" c9_good_request).1 := by
  have hbase : registry_consistent { db := fun _ => none, reg := [] } :=
    fun u => by simp
  have hnr : (set_schedule { db := fun _ => none, reg := [] } "alice"
      c9_good_request).2 = false := by decide
  exact ⟨hbase, hnr,
    schedule_writes_keep_registry_consistent.1 _ "alice" _ hbase hnr⟩

/-! ## C7: registration up front, observability of registered records -/

/-- **C7 (evaluation).** Step 2 of the batch runner registers one record per
posting — all with status `queued`, all before any processing event (every
`register` event precedes every `process` event in the run's order) — but it
writes them only into the in-memory `_jobs` mapping: the DB `jobs` table is
unchanged, so the `GET /jobs` status poll returns exactly what it returned
before the batch and never shows the registered records. -/
theorem batch_registration_not_observable (st : SearchState)
    (idps : List (String × Posting)) (now : Nat) :
    (register_jobs st idps now).mem_jobs.length =
      st.mem_jobs.length + idps.length ∧
    (∀ ip ∈ idps,
      (ip.1, new_job_record ip.2 now) ∈ (register_jobs st idps now).mem_jobs ∧
      (new_job_record ip.2 now).status = .queued) ∧
    (∀ (i j : Nat) (hi : i < (run_search_events idps).length)
        (hj : j < (run_search_events idps).length),
      is_register_event ((run_search_events idps).get ⟨i, hi⟩) = true →
      is_register_event ((run_search_events idps).get ⟨j, hj⟩) = false →
      i < j) ∧
    (register_jobs st idps now).db_jobs = st.db_jobs ∧
    list_jobs (register_jobs st idps now) = list_jobs st := by
  refine ⟨by simp [register_jobs], fun ip hip => ⟨?_, rfl⟩, ?_, rfl, rfl⟩
  · simp only [register_jobs, List.mem_append]
    exact Or.inr (List.mem_map.mpr ⟨ip, hip, rfl⟩)
  · intro i j hi hj hri hrj
    have hlen : (run_search_events idps).length = idps.length + idps.length := by
      simp [run_search_events]
    have hi_lt : i < idps.length := by
      by_contra hni
      push_neg at hni
      have hA : (idps.map fun ip => BatchEvent.register ip.1).length = idps.length := by
        simp
      have hib : i - idps.length < (idps.map fun ip => BatchEvent.process ip.1).length := by
        simp only [List.length_map]
        omega
      have hget : (run_search_events idps).get ⟨i, hi⟩ =
          (idps.map fun ip => BatchEvent.process ip.1).get ⟨i - idps.length, hib⟩ := by
        simp only [run_search_events, List.get_eq_getElem]
        rw [List.getElem_append_right (by simpa [hA] using hni)]
        simp [hA]
      rw [hget] at hri
      rw [List.get_eq_getElem, List.getElem_map] at hri
      simp [is_register_event] at hri
    have hj_ge : idps.length ≤ j := by
      by_contra hnj
      push_neg at hnj
      have hjb : j < (idps.map fun ip => BatchEvent.register ip.1).length := by
        simpa using hnj
      have hget : (run_search_events idps).get ⟨j, hj⟩ =
          (idps.map fun ip => BatchEvent.register ip.1).get ⟨j, hjb⟩ := by
        simp only [run_search_events, List.get_eq_getElem]
        rw [List.getElem_append_left hjb]
      rw [hget] at hrj
      rw [List.get_eq_getElem, List.getElem_map] at hrj
      simp [is_register_event] at hrj
    omega

/-- Witness for C1 at a concrete run (score 82 against threshold 75, sent). -/
theorem pipeline_status_transitions_witness :
    forward_chain .queued (status_trace (pipeline_job 75
      (.ok { match_score := 82, reasoning := "good", missing_skills := [] })
      (.ok { resume_suggestions := "s", cover_letter := "c" })
      (.ok { status := "sent", detail := "a@b.c" }))) = true :=
  (pipeline_status_transitions 75
    (.ok { match_score := 82, reasoning := "good", missing_skills := [] })
    (.ok { resume_suggestions := "s", cover_letter := "c" })
    (.ok { status := "sent", detail := "a@b.c" })).1

/-- Witness for C6 at a concrete run (a malformed-JSON cause string). -/
theorem scoring_failure_isolated_witness :
    status_trace (pipeline_job 75
      (.error "Expecting value: line 1 column 1 (char 0)")
      (.ok { resume_suggestions := "s", cover_letter := "c" })
      (.ok { status := "sent", detail := "a@b.c" })) = [.scoring, .error] :=
  (scoring_failure_isolated 75 "Expecting value: line 1 column 1 (char 0)"
    (.ok { resume_suggestions := "s", cover_letter := "c" })
    (.ok { status := "sent", detail := "a@b.c" })).2.1

/-- Witness for C7 at a concrete one-posting batch. -/
theorem batch_registration_not_observable_witness :
    ("j1", new_job_record c7_posting 7) ∈
      (register_jobs c7_state [("j1", c7_posting)] 7).mem_jobs ∧
    (new_job_record c7_posting 7).status = .queued ∧
    list_jobs (register_jobs c7_state [("j1", c7_posting)] 7) = list_jobs c7_state ∧
    (0 : Nat) < 1 :=
  have h := batch_registration_not_observable c7_state [("j1", c7_posting)] 7
  ⟨(h.2.1 ("j1", c7_posting) (by decide)).1, (h.2.1 ("j1", c7_posting) (by decide)).2,
   h.2.2.2.2, h.2.2.1 0 1 (by decide) (by decide) (by decide) (by decide)⟩

end AutoJob
